import Mathlib

/-!
Verification of the VisaSight prediction-serving layer specification against
the repository's code.  The data model follows `frontend/src/lib/types.ts`;
the mock prediction, the API client and the submit handler follow the
frontend sources; registry/switch, confidence-estimation and explanation
ranking are modelled from the spec where the backend code is absent.
Numbers are embedded as rationals.
-/

namespace VisaSight

/-- Status probabilities, from `frontend/src/lib/types.ts` (`StatusProbabilities`). -/
structure StatusProbabilities where
  approved : ℚ
  rfe : ℚ
  denied : ℚ
deriving DecidableEq, Repr

/-- Factor impact label, from `types.ts` (`'positive' | 'negative' | 'neutral'`). -/
inductive Impact where
  | positive
  | negative
  | neutral
deriving DecidableEq, Repr

/-- Explanation factor, from `types.ts` (`ExplanationFactor`). -/
structure ExplanationFactor where
  feature : String
  impact : Impact
  contribution : ℚ
  description : String
deriving DecidableEq, Repr

/-- Explanation bundle, from `types.ts` (`PredictionExplanation`);
`feature_importance` is embedded as an association list. -/
structure PredictionExplanation where
  top_factors : List ExplanationFactor
  feature_importance : List (String × ℚ)
  model_confidence : ℚ
deriving DecidableEq, Repr

/-- Prediction result, from `types.ts` (`PredictionResult`). -/
structure PredictionResult where
  id : String
  visa_case_id : String
  predicted_status : StatusProbabilities
  estimated_days_remaining : ℚ
  confidence_interval : ℚ × ℚ
  model_version : String
  generated_at : String
  explanation : Option PredictionExplanation
deriving DecidableEq, Repr

/-- The canned demo prediction, from `lib/api` (`getMockPrediction`).  The two
impure inputs of the original (`Math.random` suffix for the id and the current
ISO timestamp) are passed explicitly; every other field is the source's literal. -/
def getMockPrediction (randSuffix : String) (nowIso : String) : PredictionResult :=
  { id := "pred_" ++ randSuffix
    visa_case_id := "case_demo"
    predicted_status := { approved := 72/100, rfe := 18/100, denied := 10/100 }
    estimated_days_remaining := 42
    confidence_interval := (28, 56)
    model_version := "v1.0.0"
    generated_at := nowIso
    explanation := some
      { top_factors :=
          [ { feature := "prior_travel_history", impact := .positive, contribution := 15/100,
              description := "Prior successful US travel history increases approval likelihood" },
            { feature := "complete_documentation", impact := .positive, contribution := 12/100,
              description := "All required documents submitted" },
            { feature := "employer_sponsor", impact := .positive, contribution := 10/100,
              description := "Strong employer sponsorship" },
            { feature := "high_demand_consulate", impact := .negative, contribution := -8/100,
              description := "High volume consulate may have longer processing" } ]
        feature_importance :=
          [ ("prior_travel_history", 15/100),
            ("complete_documentation", 12/100),
            ("employer_sponsor", 10/100),
            ("high_demand_consulate", 8/100) ]
        model_confidence := 85/100 } }

/-- Modelled from the spec: the Prediction Orchestrator's renormalization step
("Any adapter output that does not already satisfy this is renormalized by the
Orchestrator, never passed through raw"); each score is divided by their sum. -/
def renormalizeStatus (s : StatusProbabilities) : StatusProbabilities :=
  { approved := s.approved / (s.approved + s.rfe + s.denied)
    rfe := s.rfe / (s.approved + s.rfe + s.denied)
    denied := s.denied / (s.approved + s.rfe + s.denied) }

/-- C1: for every prediction produced for a valid case input, the three status
probabilities sum to 1 within 1e-6 and each lies in [0,1].  Part one checks the
only prediction producer present in the sources (`getMockPrediction`); part two
checks the spec-modelled orchestrator renormalization for arbitrary nonnegative
scores with positive sum. -/
theorem C1_status_probabilities_sum_to_one :
    (∀ randSuffix nowIso : String,
      |(getMockPrediction randSuffix nowIso).predicted_status.approved +
        (getMockPrediction randSuffix nowIso).predicted_status.rfe +
        (getMockPrediction randSuffix nowIso).predicted_status.denied - 1| ≤ 1/1000000 ∧
      0 ≤ (getMockPrediction randSuffix nowIso).predicted_status.approved ∧
      (getMockPrediction randSuffix nowIso).predicted_status.approved ≤ 1 ∧
      0 ≤ (getMockPrediction randSuffix nowIso).predicted_status.rfe ∧
      (getMockPrediction randSuffix nowIso).predicted_status.rfe ≤ 1 ∧
      0 ≤ (getMockPrediction randSuffix nowIso).predicted_status.denied ∧
      (getMockPrediction randSuffix nowIso).predicted_status.denied ≤ 1) ∧
    (∀ s : StatusProbabilities, 0 ≤ s.approved → 0 ≤ s.rfe → 0 ≤ s.denied →
      0 < s.approved + s.rfe + s.denied →
      (renormalizeStatus s).approved + (renormalizeStatus s).rfe +
        (renormalizeStatus s).denied = 1 ∧
      0 ≤ (renormalizeStatus s).approved ∧ (renormalizeStatus s).approved ≤ 1 ∧
      0 ≤ (renormalizeStatus s).rfe ∧ (renormalizeStatus s).rfe ≤ 1 ∧
      0 ≤ (renormalizeStatus s).denied ∧ (renormalizeStatus s).denied ≤ 1) := by
  constructor
  · intro randSuffix nowIso
    simp only [getMockPrediction]
    norm_num
  · intro s ha hr hd hsum
    simp only [renormalizeStatus]
    refine ⟨by field_simp, ?_, ?_, ?_, ?_, ?_, ?_⟩
    · exact div_nonneg ha hsum.le
    · rw [div_le_one hsum]; linarith
    · exact div_nonneg hr hsum.le
    · rw [div_le_one hsum]; linarith
    · exact div_nonneg hd hsum.le
    · rw [div_le_one hsum]; linarith

/-- Witness for C1 at the concrete score triple (2, 1, 1). -/
theorem C1_witness :
    (renormalizeStatus ⟨2, 1, 1⟩).approved + (renormalizeStatus ⟨2, 1, 1⟩).rfe +
      (renormalizeStatus ⟨2, 1, 1⟩).denied = 1 :=
  (C1_status_probabilities_sum_to_one.2 ⟨2, 1, 1⟩ (by norm_num) (by norm_num)
    (by norm_num) (by norm_num)).1

/-- C3: every invocation of the mock model returns exactly
status = (0.72, 0.18, 0.10), 42 estimated days, interval (28, 56) and model
version "v1.0.0", regardless of the case input (the mock ignores its input). -/
theorem C3_mock_prediction_fixed_output (randSuffix nowIso : String) :
    (getMockPrediction randSuffix nowIso).predicted_status =
      { approved := 72/100, rfe := 18/100, denied := 10/100 } ∧
    (getMockPrediction randSuffix nowIso).estimated_days_remaining = 42 ∧
    (getMockPrediction randSuffix nowIso).confidence_interval = (28, 56) ∧
    (getMockPrediction randSuffix nowIso).model_version = "v1.0.0" :=
  ⟨rfl, rfl, rfl, rfl⟩

/-- Modelled from the spec: the Confidence Estimator
`estimate_interval(point_estimate, raw_uncertainty) -> (lower, upper)` (absent
from the sources; only the spec defines it).  With an explicit uncertainty it
uses the 80%-coverage Gaussian band point ± 1.2816·sigma; without one it falls
back to the ±25% empirical band.  The lower bound is clamped to ≥ 0, and
`lower ≤ point ≤ upper` is enforced by clamping. -/
def estimate_interval (point : ℚ) (raw_uncertainty : Option ℚ) : ℚ × ℚ :=
  let raw : ℚ × ℚ :=
    match raw_uncertainty with
    | some sigma => (point - 12816/10000 * sigma, point + 12816/10000 * sigma)
    | none => (point - 25/100 * point, point + 25/100 * point)
  (min point (max 0 raw.1), max point raw.2)

/-- C2: every prediction satisfies lower ≤ estimated_days_remaining ≤ upper with
lower ≥ 0.  Part one checks the prediction producer present in the sources (the
mock, interval (28,56) around 42); part two checks the spec-modelled confidence
estimator for every nonnegative point estimate and any uncertainty input. -/
theorem C2_confidence_interval_brackets_estimate :
    (∀ randSuffix nowIso : String,
      (getMockPrediction randSuffix nowIso).confidence_interval.1 ≤
        (getMockPrediction randSuffix nowIso).estimated_days_remaining ∧
      (getMockPrediction randSuffix nowIso).estimated_days_remaining ≤
        (getMockPrediction randSuffix nowIso).confidence_interval.2 ∧
      0 ≤ (getMockPrediction randSuffix nowIso).confidence_interval.1) ∧
    (∀ (point : ℚ) (raw_uncertainty : Option ℚ), 0 ≤ point →
      (estimate_interval point raw_uncertainty).1 ≤ point ∧
      point ≤ (estimate_interval point raw_uncertainty).2 ∧
      0 ≤ (estimate_interval point raw_uncertainty).1) := by
  constructor
  · intro randSuffix nowIso
    simp only [getMockPrediction]
    norm_num
  · intro point raw_uncertainty hpoint
    refine ⟨min_le_left _ _, le_max_left _ _, le_min hpoint (le_max_left 0 _)⟩

/-- Witness for C2 at point estimate 42 with no uncertainty signal. -/
theorem C2_witness :
    (estimate_interval 42 none).1 ≤ 42 ∧ (42:ℚ) ≤ (estimate_interval 42 none).2 ∧
      0 ≤ (estimate_interval 42 none).1 :=
  C2_confidence_interval_brackets_estimate.2 42 none (by norm_num)

/-- C5: when no uncertainty signal is supplied, the confidence estimator
returns exactly the ±25% band around the point estimate (for a nonnegative
point estimate the clamps are inactive). -/
theorem C5_fallback_band (point : ℚ) (h : 0 ≤ point) :
    estimate_interval point none = (point - 25/100 * point, point + 25/100 * point) := by
  simp only [estimate_interval]
  have h1 : (0:ℚ) ≤ point - 25/100 * point := by linarith
  have h2 : point - 25/100 * point ≤ point := by linarith
  have h3 : point ≤ point + 25/100 * point := by linarith
  rw [max_eq_right h1, min_eq_right h2, max_eq_right h3]

/-- Witness for C5 at point estimate 40: the band is (30, 50). -/
theorem C5_witness : estimate_interval 40 none = (30, 50) := by
  rw [C5_fallback_band 40 (by norm_num)]
  norm_num

/-- Computable absolute value on the rationals, mirroring `Math.abs`. -/
def ratAbs (q : ℚ) : ℚ := if q < 0 then -q else q

theorem ratAbs_eq_abs (q : ℚ) : ratAbs q = |q| := by
  unfold ratAbs
  rcases lt_or_ge q 0 with h | h
  · rw [if_pos h, abs_of_neg h]
  · rw [if_neg (not_lt.mpr h), abs_of_nonneg h]

/-- The ranking order of explanation factors: descending absolute contribution. -/
def byAbsContributionDesc (f g : ExplanationFactor) : Prop :=
  |g.contribution| ≤ |f.contribution|

instance : DecidableRel byAbsContributionDesc := fun f g =>
  decidable_of_iff (ratAbs g.contribution ≤ ratAbs f.contribution)
    (by rw [ratAbs_eq_abs, ratAbs_eq_abs]; exact Iff.rfl)

instance : IsTotal ExplanationFactor byAbsContributionDesc :=
  ⟨fun f g => le_total |g.contribution| |f.contribution|⟩

instance : IsTrans ExplanationFactor byAbsContributionDesc :=
  ⟨fun _ _ _ h1 h2 => le_trans h2 h1⟩

/-- Modelled from the spec: the impact classification of the Explanation Engine
(neutral within a small epsilon of 0, positive if the contribution is > 0,
negative if < 0). -/
def classifyImpact (eps c : ℚ) : Impact :=
  if ratAbs c ≤ eps then .neutral else if 0 < c then .positive else .negative

/-- Modelled from the spec: the Explanation Engine
`explain(raw_contributions, model_confidence)` (absent from the sources; only
the spec defines it).  It returns none without contributions; otherwise it
sorts by absolute contribution descending, takes the top 5, classifies each
impact, attaches a templated description, and passes the model confidence
through (defaulting to a constant marking it uncalibrated). -/
def explain (describe : String → String) (eps : ℚ)
    (raw_contributions : Option (List (String × ℚ))) (model_confidence : Option ℚ) :
    Option PredictionExplanation :=
  match raw_contributions with
  | none => none
  | some contribs =>
    let factors : List ExplanationFactor := contribs.map fun fc =>
      { feature := fc.1, impact := classifyImpact eps fc.2, contribution := fc.2,
        description := describe fc.1 }
    some { top_factors := (List.insertionSort byAbsContributionDesc factors).take 5
           feature_importance := contribs
           model_confidence := model_confidence.getD (1/2) }

/-- C4: every explanation bundle's top_factors has at most 5 entries and is
ordered by descending absolute contribution.  Part one checks the bundle the
sources actually construct (the mock's); part two checks the spec-modelled
Explanation Engine on arbitrary input. -/
theorem C4_top_factors_bounded_and_sorted :
    (∀ randSuffix nowIso : String,
      ∀ e ∈ (getMockPrediction randSuffix nowIso).explanation,
        e.top_factors.length ≤ 5 ∧ List.Sorted byAbsContributionDesc e.top_factors) ∧
    (∀ (describe : String → String) (eps : ℚ) (raw_contributions : Option (List (String × ℚ)))
        (model_confidence : Option ℚ),
      ∀ e ∈ explain describe eps raw_contributions model_confidence,
        e.top_factors.length ≤ 5 ∧ List.Sorted byAbsContributionDesc e.top_factors) := by
  constructor
  · intro randSuffix nowIso e he
    simp only [getMockPrediction, Option.mem_def, Option.some.injEq] at he
    subst he
    refine ⟨by norm_num, ?_⟩
    simp only [List.Sorted, List.pairwise_cons, List.mem_cons, List.not_mem_nil,
      byAbsContributionDesc, or_false, forall_eq_or_imp, forall_eq, false_implies,
      implies_true, and_true, List.Pairwise.nil]
    norm_num
    refine ⟨⟨?_, ?_, ?_⟩, ⟨?_, ?_⟩, ?_⟩ <;> exact abs_le_abs (by norm_num) (by norm_num)
  · intro describe eps raw_contributions model_confidence e he
    match raw_contributions with
    | none => simp [explain] at he
    | some contribs =>
      simp only [explain, Option.mem_def, Option.some.injEq] at he
      subst he
      constructor
      · exact List.length_take_le 5 _
      · exact List.Pairwise.sublist (List.take_sublist 5 _)
          (List.sorted_insertionSort byAbsContributionDesc _)

/-- The explanation bundle of the canned demo prediction, spelled out. -/
def mockBundle : PredictionExplanation :=
  { top_factors :=
      [ { feature := "prior_travel_history", impact := .positive, contribution := 15/100,
          description := "Prior successful US travel history increases approval likelihood" },
        { feature := "complete_documentation", impact := .positive, contribution := 12/100,
          description := "All required documents submitted" },
        { feature := "employer_sponsor", impact := .positive, contribution := 10/100,
          description := "Strong employer sponsorship" },
        { feature := "high_demand_consulate", impact := .negative, contribution := -8/100,
          description := "High volume consulate may have longer processing" } ]
    feature_importance :=
      [ ("prior_travel_history", 15/100),
        ("complete_documentation", 12/100),
        ("employer_sponsor", 10/100),
        ("high_demand_consulate", 8/100) ]
    model_confidence := 85/100 }

/-- Witness for C4: the bundle of the canned demo prediction. -/
theorem C4_witness :
    mockBundle.top_factors.length ≤ 5 ∧
      List.Sorted byAbsContributionDesc mockBundle.top_factors :=
  C4_top_factors_bounded_and_sorted.1 "x" "t" mockBundle (Option.mem_def.mpr rfl)

/-- Model descriptor metadata, from the `ModelInfo` interface of the
`ModelSelector` component (name, version, type, optional trained_at, optional
metrics mapping, is_active flag). -/
structure ModelInfo where
  name : String
  version : String
  type : String
  trained_at : Option String
  metrics : Option (List (String × Option ℚ))
  is_active : Bool
deriving DecidableEq, Repr

/-- Number of descriptors in a registry flagged active. -/
def activeCount (reg : List ModelInfo) : Nat :=
  reg.countP fun d => d.is_active

/-- Modelled from the spec: the Model Switch Controller
`switch(target_version)` (absent from the sources; only the spec defines it).
An unregistered target fails with `UnknownModelVersionError`; otherwise the
active flag is cleared everywhere and set on the target in one step. -/
def applySwitch (reg : List ModelInfo) (target_version : String) :
    Except String (List ModelInfo) :=
  if reg.any fun d => d.version == target_version then
    .ok (reg.map fun d => { d with is_active := d.version == target_version })
  else
    .error "UnknownModelVersionError"

/-- C6: after any successful switch on a registry with unique versions, exactly
one descriptor is active and the registry is non-empty, so the at-most-one /
exactly-one-active invariant holds at every instant reachable through the
switch controller. -/
theorem C6_exactly_one_active (reg : List ModelInfo) (v : String)
    (reg' : List ModelInfo) (hnodup : (reg.map fun d => d.version).Nodup)
    (h : applySwitch reg v = .ok reg') :
    activeCount reg' = 1 ∧ reg' ≠ [] := by
  unfold applySwitch at h
  split at h
  case isTrue hany =>
    obtain ⟨x, hx, hxv⟩ := List.any_eq_true.mp hany
    have hxv' : x.version = v := by simpa using hxv
    have hmem : v ∈ reg.map fun d => d.version := List.mem_map.mpr ⟨x, hx, hxv'⟩
    cases h
    constructor
    · show activeCount (reg.map fun d => { d with is_active := d.version == v }) = 1
      unfold activeCount
      rw [List.countP_map]
      have : (reg.map fun d => d.version).count v = 1 :=
        List.count_eq_one_of_mem hnodup hmem
      rw [List.count, List.countP_map] at this
      exact this
    · intro hnil
      rw [List.map_eq_nil_iff] at hnil
      subst hnil
      exact List.not_mem_nil x hx
  case isFalse hany => exact absurd h (by simp)

/-- A concrete two-model registry used by the witnesses. -/
def regSample : List ModelInfo :=
  [ { name := "Baseline RF", version := "1.0.0", type := "baseline-rf",
      trained_at := none, metrics := none, is_active := true },
    { name := "Transformer", version := "2.0.0", type := "hf",
      trained_at := none, metrics := none, is_active := false } ]

/-- Witness for C6: switching the sample registry to version 2.0.0. -/
theorem C6_witness :
    activeCount (regSample.map fun d => { d with is_active := d.version == "2.0.0" }) = 1 ∧
      (regSample.map fun d => { d with is_active := d.version == "2.0.0" }) ≠ [] :=
  C6_exactly_one_active regSample "2.0.0" _ (by decide) rfl

/-- Request body of the model-switch call, from `lib/api`
(`JSON.stringify({ model_type: modelType })`). -/
structure SwitchRequestBody where
  model_type : String
deriving DecidableEq, Repr

/-- Success response shape of the model-switch call, from the `api.models.switch`
type argument: exactly the fields message, model_type and model_version. -/
structure SwitchResponse where
  message : String
  model_type : String
  model_version : String
deriving DecidableEq, Repr

/-- An HTTP request as built by the frontend client for the switch call. -/
structure HttpRequestSpec where
  endpoint : String
  method : String
  body : SwitchRequestBody
deriving DecidableEq, Repr

/-- The request `api.models.switch` builds, from `lib/api`. -/
def switchApiRequest (modelType : String) : HttpRequestSpec :=
  { endpoint := "/api/models/switch", method := "POST",
    body := { model_type := modelType } }

/-- Modelled from the spec: the switch endpoint's handling of an unknown
version (absent from the sources; the spec's interface table gives 404 and the
spec requires the previously active descriptor to be left unchanged). -/
def handleSwitchEndpoint (reg : List ModelInfo) (target_version : String) :
    Nat × List ModelInfo :=
  match applySwitch reg target_version with
  | .ok reg' => (200, reg')
  | .error _ => (404, reg)

/-- C8: the switch operation is invoked as POST /api/models/switch with body
\x7bmodel_type\x7d; its success response carries exactly message, model_type and
model_version; and switching to an unknown version yields 404 with the registry
(hence the previously active descriptor) unchanged. -/
theorem C8_switch_contract :
    (∀ modelType, switchApiRequest modelType =
      { endpoint := "/api/models/switch", method := "POST",
        body := { model_type := modelType } }) ∧
    (∀ r : SwitchResponse,
      r = { message := r.message, model_type := r.model_type,
            model_version := r.model_version }) ∧
    (∀ (reg : List ModelInfo) (v : String), (∀ d ∈ reg, d.version ≠ v) →
      handleSwitchEndpoint reg v = (404, reg)) := by
  refine ⟨fun _ => rfl, fun _ => rfl, ?_⟩
  intro reg v h
  have hany : (reg.any fun d => d.version == v) = false := by
    rw [List.any_eq_false]
    intro x hx
    simpa using h x hx
  unfold handleSwitchEndpoint applySwitch
  rw [if_neg (by simp [hany])]

/-- Witness for C8: switching the sample registry to an unregistered version. -/
theorem C8_witness : handleSwitchEndpoint regSample "9.9.9" = (404, regSample) :=
  C8_switch_contract.2.2 regSample "9.9.9" (by decide)

/-- UI state the prediction form's submit handler produces, from the predict
page (`prediction`, `showPrediction` and `error` state after `handleSubmit`). -/
structure UiState where
  prediction : Option PredictionResult
  showPrediction : Bool
  error : Option String
deriving DecidableEq, Repr

/-- The submit handler of the predict page, from `handleSubmit`: on API success
the result is shown (a failure of the follow-up case-store call is only
logged); on API failure the canned demo prediction is shown together with an
error notice. -/
def handleSubmit (apiResult : Except String PredictionResult)
    (saveResult : Except String Unit)
    (randSuffix nowIso : String) : UiState :=
  match apiResult with
  | .ok r =>
    match saveResult with
    | .ok _ => { prediction := some r, showPrediction := true, error := none }
    | .error _ => { prediction := some r, showPrediction := true, error := none }
  | .error _ =>
    { prediction := some (getMockPrediction randSuffix nowIso),
      showPrediction := true,
      error := some "Using demo prediction. Backend connection issue." }

/-- C7: whatever the API call's outcome, the submit handler ends with a
prediction displayed; on failure it is the canned demo prediction together
with the error notice, and on success the API result with no error notice. -/
theorem C7_fallback_on_api_failure :
    (∀ apiResult saveResult randSuffix nowIso,
      (handleSubmit apiResult saveResult randSuffix nowIso).showPrediction = true ∧
      (handleSubmit apiResult saveResult randSuffix nowIso).prediction.isSome = true) ∧
    (∀ e saveResult randSuffix nowIso,
      handleSubmit (.error e) saveResult randSuffix nowIso =
        { prediction := some (getMockPrediction randSuffix nowIso),
          showPrediction := true,
          error := some "Using demo prediction. Backend connection issue." }) ∧
    (∀ r saveResult randSuffix nowIso,
      handleSubmit (.ok r) saveResult randSuffix nowIso =
        { prediction := some r, showPrediction := true, error := none }) := by
  refine ⟨?_, fun _ _ _ _ => rfl, fun r saveResult _ _ => ?_⟩
  · intro apiResult saveResult randSuffix nowIso
    cases apiResult <;> cases saveResult <;> exact ⟨rfl, rfl⟩
  · cases saveResult <;> rfl

/-- The three primary outcome keys of the prediction panel. -/
inductive PrimaryOutcome where
  | approved
  | rfe
  | denied
deriving DecidableEq, Repr

/-- Outcome selection of the prediction panel, from `getPrimaryOutcome` in
`PredictionPanel.tsx` (only the selected key is modelled; label and icon are
presentation). -/
def getPrimaryOutcome (s : StatusProbabilities) : PrimaryOutcome :=
  if s.approved ≥ s.rfe ∧ s.approved ≥ s.denied then .approved
  else if s.rfe ≥ s.denied then .rfe
  else .denied

/-- The probability a status assigns to an outcome key. -/
def probOf : PrimaryOutcome → StatusProbabilities → ℚ
  | .approved, s => s.approved
  | .rfe, s => s.rfe
  | .denied, s => s.denied

/-- JavaScript `x || 0` on a number: 0 when x is falsy (0), else x. -/
def jsOrZero (x : ℚ) : ℚ := if x = 0 then 0 else x

theorem jsOrZero_eq (x : ℚ) : jsOrZero x = x := by
  unfold jsOrZero
  split
  next h => exact h.symm
  next => rfl

/-- The displayed confidence, from `PredictionPanel`
(`Math.max(approved, rfe, denied)` over the defensively defaulted values). -/
def highestProbability (s : StatusProbabilities) : ℚ :=
  max (jsOrZero s.approved) (max (jsOrZero s.rfe) (jsOrZero s.denied))

/-- C9: the panel's primary outcome attains the maximum of the three
probabilities, the displayed confidence equals that same maximum, and ties go
to approved over rfe and denied, and to rfe over denied. -/
theorem C9_primary_outcome_is_argmax (s : StatusProbabilities) :
    probOf (getPrimaryOutcome s) s = max s.approved (max s.rfe s.denied) ∧
    highestProbability s = max s.approved (max s.rfe s.denied) ∧
    (max s.approved (max s.rfe s.denied) = s.approved →
      getPrimaryOutcome s = .approved) ∧
    (getPrimaryOutcome s = .rfe → s.approved < s.rfe ∧ s.denied ≤ s.rfe) ∧
    (getPrimaryOutcome s = .denied → s.approved < s.denied ∧ s.rfe < s.denied) := by
  have hmax : highestProbability s = max s.approved (max s.rfe s.denied) := by
    unfold highestProbability
    rw [jsOrZero_eq, jsOrZero_eq, jsOrZero_eq]
  unfold getPrimaryOutcome
  split_ifs with h1 h2
  · obtain ⟨har, had⟩ := h1
    have : max s.approved (max s.rfe s.denied) = s.approved :=
      max_eq_left (max_le har had)
    exact ⟨by rw [probOf, this], hmax, fun _ => rfl, by simp, by simp⟩
  · have har : s.approved < s.rfe := by
      rcases not_and_or.mp h1 with h | h
      · exact lt_of_not_ge h
      · exact lt_of_lt_of_le (lt_of_not_ge h) h2
    have : max s.approved (max s.rfe s.denied) = s.rfe := by
      rw [max_eq_left h2, max_eq_right har.le]
    refine ⟨by rw [probOf, this], hmax, fun hc => ?_, fun _ => ⟨har, h2⟩, by simp⟩
    rw [this] at hc
    exact absurd hc (ne_of_gt har)
  · have hrd : s.rfe < s.denied := lt_of_not_ge h2
    have had : s.approved < s.denied := by
      rcases not_and_or.mp h1 with h | h
      · exact lt_trans (lt_of_not_ge h) hrd
      · exact lt_of_not_ge h
    have : max s.approved (max s.rfe s.denied) = s.denied := by
      rw [max_eq_right hrd.le, max_eq_right had.le]
    refine ⟨by rw [probOf, this], hmax, fun hc => ?_, by simp, fun _ => ⟨had, hrd⟩⟩
    rw [this] at hc
    exact absurd hc (ne_of_gt had)

/-- Witness for C9 at the mock's distribution (0.72, 0.18, 0.10). -/
theorem C9_witness :
    getPrimaryOutcome { approved := 72/100, rfe := 18/100, denied := 10/100 } =
      PrimaryOutcome.approved :=
  (C9_primary_outcome_is_argmax
    { approved := 72/100, rfe := 18/100, denied := 10/100 }).2.2.1
    (max_eq_left (max_le (by norm_num) (by norm_num)))

/-- A parsed JSON response body as far as `apiRequest` inspects it: only the
optional `detail` field matters (modelled as an optional string). -/
structure JsonBody where
  detail : Option String
deriving DecidableEq, Repr

/-- An HTTP response as `apiRequest` consumes it: the ok flag, the status code
(embedded as its decimal string, since only its text enters the error
message), and the parsed JSON body when the body parses (`none` when
`response.json()` rejects). -/
structure HttpResponse where
  ok : Bool
  status : String
  jsonBody : Option JsonBody
deriving DecidableEq, Repr

/-- The response handling of `apiRequest`, from `lib/api`: an ok response
returns its parsed body (an unparseable ok body propagates the parse
rejection); a non-ok response throws an Error whose message is
`error.detail || "HTTP <status>"`, where an unparseable body was replaced by
a body whose detail is "Request failed", and a JavaScript string is falsy
exactly when it is empty. -/
def apiRequest (resp : HttpResponse) : Except String JsonBody :=
  if resp.ok then
    match resp.jsonBody with
    | some b => .ok b
    | none => .error "SyntaxError: response body is not valid JSON"
  else
    match (resp.jsonBody).getD { detail := some "Request failed" } with
    | { detail := some d } =>
      if d ≠ "" then .error d else .error ("HTTP " ++ resp.status)
    | { detail := none } => .error ("HTTP " ++ resp.status)

/-- C10 counterexample: a non-ok response whose parsed body has a present but
empty `detail` field is thrown as "HTTP 500", not as the present detail
field's value, refuting the claim that the message is the body's detail
field whenever it is present. -/
theorem C10_counterexample :
    apiRequest { ok := false, status := "500", jsonBody := some { detail := some "" } } =
      .error "HTTP 500" ∧
    ({ ok := false, status := "500", jsonBody := some { detail := some "" } }
        : HttpResponse).jsonBody = some { detail := some "" } ∧
    "HTTP 500" ≠ "" := by
  refine ⟨rfl, rfl, by decide⟩

/-- C10 (amended): `apiRequest` returns the parsed JSON body when the response
is ok and the body parses, and only for ok responses; a non-ok response always
throws, with message the detail field when present and non-empty, "Request
failed" when the body does not parse, and "HTTP <status>" when the detail
field is absent or empty. -/
theorem C10_apiRequest_error_taxonomy (resp : HttpResponse) :
    (resp.ok = true → ∀ b, resp.jsonBody = some b → apiRequest resp = .ok b) ∧
    (∀ b, apiRequest resp = .ok b → resp.ok = true) ∧
    (resp.ok = false →
      (∃ msg, apiRequest resp = .error msg) ∧
      (resp.jsonBody = none → apiRequest resp = .error "Request failed") ∧
      (∀ d, resp.jsonBody = some { detail := some d } → d ≠ "" →
        apiRequest resp = .error d) ∧
      (resp.jsonBody = some { detail := none } →
        apiRequest resp = .error ("HTTP " ++ resp.status)) ∧
      (resp.jsonBody = some { detail := some "" } →
        apiRequest resp = .error ("HTTP " ++ resp.status))) := by
  obtain ⟨ok, status, jsonBody⟩ := resp
  refine ⟨?_, ?_, ?_⟩
  · rintro hok b hb
    subst hok hb
    rfl
  · intro b hb
    cases ok
    · exfalso
      revert hb
      unfold apiRequest
      rcases jsonBody with _ | ⟨_ | d⟩ <;> simp
      intro h
      split at h <;> simp at h
    · rfl
  · rintro hok
    subst hok
    refine ⟨?_, ?_, ?_, ?_, ?_⟩
    · unfold apiRequest
      rcases jsonBody with _ | ⟨_ | d⟩ <;> simp
      split <;> simp
    · rintro rfl
      rfl
    · rintro d rfl hd
      unfold apiRequest
      simp [hd]
    · rintro rfl
      rfl
    · rintro rfl
      rfl

/-- Witness for C10 at a concrete non-ok response with unparseable body. -/
theorem C10_witness :
    apiRequest { ok := false, status := "404", jsonBody := none } =
      .error "Request failed" :=
  ((C10_apiRequest_error_taxonomy
    { ok := false, status := "404", jsonBody := none }).2.2 rfl).2.1 rfl

end VisaSight
